import Mathlib

set_option maxRecDepth 100000

/-
  Verification of the order-automation server in src/app.py against its
  natural-language specification.

  Modelling conventions:
  * Python strings are Lean String; str.strip is pyStrip; truthiness of an
    optional string field is pyTruthy.
  * A JSON object field that may be absent or null is Option (Option _):
    none = key absent, some none = key present with null, some (some x) = value.
    Sub-fields of addresses/customers are Option String (absent or string);
    present-null sub-fields are outside the scope of the claims.
  * Numbers are exact rationals.  On every numeric computation appearing in
    the claims, Python binary64 arithmetic agrees with exact rational
    arithmetic (in particular 9.99 * 100 is exactly 999.0 in binary64 and
    round(9.99 * 2, 2) is the double nearest 19.98), so no floating-point
    model is needed.
  * Fallible Python code is modelled in Except PyErr; an attribute access on
    None raises attributeError, reading an unassigned local raises
    unboundLocalError.  A bare except clause is modelled by catching the
    Except value.
-/

namespace ShopifyApp

/-- Whitespace characters removed by Python str.strip with no argument
(the common ASCII ones; none of the claims involve exotic whitespace). -/
def pyWS (c : Char) : Bool :=
  c == ' ' || c == '\t' || c == '\n' || c == '\r'

/-- Python str.strip(): remove leading and trailing whitespace. -/
def pyStrip (s : String) : String := ⟨List.rdropWhile pyWS (s.data.dropWhile pyWS)⟩

/-- Python truthiness of an optional string: None and the empty string are
falsy, every other string is truthy. -/
def pyTruthy (o : Option String) : Bool :=
  match o with
  | none => false
  | some s => s ≠ ""

/-- Python str.split(",") on character lists (structural, so that concrete
runs reduce in the kernel): the empty string yields [""], separators delimit
possibly-empty fields. -/
def splitCommaAux : List Char → List Char → List String
  | [], acc => [⟨acc.reverse⟩]
  | c :: rest, acc =>
    if c = ',' then ⟨acc.reverse⟩ :: splitCommaAux rest []
    else splitCommaAux rest (c :: acc)

/-- Python s.split(","). -/
def pySplitComma (s : String) : List String := splitCommaAux s.data []

/-- Python str.lower() (character-wise, structural). -/
def pyLower (s : String) : String := ⟨s.data.map Char.toLower⟩

/-- Floor of a rational, computed directly by floor division of the
numerator by the (positive) denominator. -/
def ratFloor (q : ℚ) : Int := Int.fdiv q.num q.den

/-- Python int() truncation toward zero of a rational. -/
def pyTrunc (q : ℚ) : Int := if q < 0 then -(ratFloor (-q)) else ratFloor q

/-- Python round(x, 2): round to the nearest multiple of 1/100, ties to even. -/
def pyRound2 (q : ℚ) : ℚ :=
  let x := q * 100
  let f : Int := ratFloor x
  let r : ℚ := x - f
  let n : Int :=
    if r < 1/2 then f
    else if r > 1/2 then f + 1
    else if f % 2 = 0 then f else f + 1
  (n : ℚ) / 100

/-- Python errors that the modelled code can raise. -/
inductive PyErr where
  | attributeError
  | unboundLocalError
deriving DecidableEq, Repr

/-- Short-circuiting bind for Except, used to model sequential Python
statements that may raise. -/
def ebind (x : Except PyErr α) (f : α → Except PyErr β) : Except PyErr β :=
  match x with
  | Except.error e => Except.error e
  | Except.ok v => f v

@[simp] theorem ebind_ok (v : α) (f : α → Except PyErr β) :
    ebind (Except.ok v) f = f v := rfl

@[simp] theorem ebind_error (e : PyErr) (f : α → Except PyErr β) :
    ebind (Except.error e) f = Except.error e := rfl

instance exceptDecEq {ε α : Type} [DecidableEq ε] [DecidableEq α] :
    DecidableEq (Except ε α) := fun x y =>
  match x, y with
  | Except.ok a, Except.ok b => decidable_of_iff (a = b) (by simp)
  | Except.error e, Except.error f => decidable_of_iff (e = f) (by simp)
  | Except.ok _, Except.error _ => isFalse (fun h => by cases h)
  | Except.error _, Except.ok _ => isFalse (fun h => by cases h)

/-! ## Data model (src/app.py: the order JSON fields the code reads) -/

/-- A Shopify address object (shipping, billing, or a customer's default
address), with the sub-fields src/app.py reads.  Each sub-field may be
absent (none), present null (some none), or a string (some (some s)):
dict.get(key) returns None for the first two, while dict.get(key, '')
returns '' for an absent key but None for a present null, on which the
code's .strip() raises AttributeError. -/
structure Address where
  first_name : Option (Option String) := none
  last_name : Option (Option String) := none
  address1 : Option (Option String) := none
  address2 : Option (Option String) := none
  phone : Option (Option String) := none
  city : Option (Option String) := none
  province : Option (Option String) := none
deriving DecidableEq, Repr

/-- A Shopify customer object, with the sub-fields src/app.py reads.
first_name, last_name and phone distinguish present-null from absent like
Address sub-fields; default_address may be absent, null, or an address.
email is read only by customer.get('email', ''), whose result flows into
the returned dict without any further attribute access, so its null case
raises nowhere and is not separated from absence. -/
structure Customer where
  first_name : Option (Option String) := none
  last_name : Option (Option String) := none
  phone : Option (Option String) := none
  email : Option String := none
  default_address : Option (Option Address) := none
deriving DecidableEq, Repr

/-- A Shopify line item.  price and quantity carry the defaults the code
supplies via dict.get; name is required where the code indexes it directly. -/
structure LineItem where
  name : String
  price : ℚ
  quantity : Int := 1
  sku : Option String := none
deriving DecidableEq, Repr

/-- A fulfillment entry on a Shopify order (only tracking_company is read). -/
structure Fulfillment where
  tracking_company : Option String := none
deriving DecidableEq, Repr

/-- A Shopify order, with the fields src/app.py reads.  The three nested
objects may each be absent (none), present null (some none), or present
(some (some _)). -/
structure Order where
  id : Int
  order_number : Option Int := none
  email : Option String := none
  contact_email : Option String := none
  phone : Option String := none
  gateway : Option String := none
  tags : Option String := none
  total_price : Option ℚ := none
  line_items : List LineItem := []
  shipping_address : Option (Option Address) := none
  billing_address : Option (Option Address) := none
  customer : Option (Option Customer) := none
  fulfillments : List Fulfillment := []
deriving DecidableEq, Repr

/-- Python shopify_order.get(key, dict()) for an address-valued key: an
absent key yields an empty dict, a present null yields None (modelled none),
a present object yields the object. -/
def getAddrDict (f : Option (Option Address)) : Option Address :=
  match f with
  | none => some {}
  | some none => none
  | some (some a) => some a

/-- Python shopify_order.get('customer', dict()). -/
def getCustDict (f : Option (Option Customer)) : Option Customer :=
  match f with
  | none => some {}
  | some none => none
  | some (some c) => some c

/-- The normalized customer data dict produced by extract_customer_data. -/
structure CustomerData where
  name : String
  address : String
  phone : String
  city : String
  province : String
  email : String
deriving DecidableEq, Repr

/-! ## Customer data resolver (src/app.py lines 519-696)

These functions model the bodies of extract_customer_data and its helper
functions as written in the source.  Occurrences of self.helper inside the
bodies are resolved to the like-named definitions below; the fact that the
class EHDMService does not actually bind these defs as methods is modelled
separately (ehdmServiceMethods) and settled by its own claim. -/

/-- Python truthiness of address.get(key) for a string sub-field: an absent
key and a present null are both the falsy None; a present string is truthy
exactly when nonempty. -/
def getTruthy : Option (Option String) → Bool
  | some (some s) => s ≠ ""
  | _ => false

/-- Python address.get(key, '').strip() for a string sub-field: an absent
key strips the default '', a present null returns None whose .strip()
raises AttributeError, and a present string is stripped. -/
def stripGet : Option (Option String) → Except PyErr String
  | none => Except.ok ""
  | some none => Except.error PyErr.attributeError
  | some (some s) => Except.ok (pyStrip s)

/-- One name if-block of the extractors (lines 578-583 and its copies): when
the address has a truthy first or last name, both are fetched with default
'' and stripped (raising on a present null), and the joined name is returned
when nonempty; otherwise control falls through to k.  A null address raises
at the guard's .get. -/
def nameFromAddr (a : Option Address) (k : Except PyErr String) :
    Except PyErr String :=
  match a with
  | none => Except.error PyErr.attributeError
  | some a =>
    if getTruthy a.first_name || getTruthy a.last_name then
      ebind (stripGet a.first_name) fun fn =>
      ebind (stripGet a.last_name) fun ln =>
      if fn ≠ "" || ln ≠ "" then Except.ok (pyStrip (fn ++ " " ++ ln)) else k
    else k

/-- One street-address if-block (lines 596-601 and its copies): guarded by a
truthy address1; address2 is fetched with default '' and stripped, raising
AttributeError when it is a present null (line 598). -/
def addrFromAddr (a : Option Address) (k : Except PyErr String) :
    Except PyErr String :=
  match a with
  | none => Except.error PyErr.attributeError
  | some a =>
    if getTruthy a.address1 then
      ebind (stripGet a.address1) fun a1 =>
      ebind (stripGet a.address2) fun a2 =>
      let addr := pyStrip (a1 ++ " " ++ a2)
      if addr ≠ "" then Except.ok addr else k
    else k

/-- One phone if-block (lines 614-615 and its copies): a truthy phone is
returned stripped, otherwise control falls through to k. -/
def phoneFromAddr (a : Option Address) (k : Except PyErr String) :
    Except PyErr String :=
  match a with
  | none => Except.error PyErr.attributeError
  | some a => if getTruthy a.phone then stripGet a.phone else k

/-- One city if-block (lines 662-665 and its copies): a truthy city is
stripped and returned when still nonempty, otherwise control falls through. -/
def cityFromAddr (a : Option Address) (k : Except PyErr String) :
    Except PyErr String :=
  match a with
  | none => Except.error PyErr.attributeError
  | some a =>
    if getTruthy a.city then
      ebind (stripGet a.city) fun c =>
      if c ≠ "" then Except.ok c else k
    else k

/-- One province if-block (lines 684-685 and its copies): a truthy province
is returned raw (unstripped), otherwise control falls through. -/
def provFromAddr (a : Option Address) (k : Except PyErr String) :
    Except PyErr String :=
  match a with
  | none => Except.error PyErr.attributeError
  | some a =>
    if getTruthy a.province then Except.ok (a.province.join.getD "") else k

/-- Body of _extract_name_from_order (lines 575-591): the shipping block,
then the billing block, then the empty-string fallback.  Billing is only
touched when the shipping address yields no name, mirroring the control
flow. -/
def _extract_name_from_order (sh bi : Option Address) : Except PyErr String :=
  nameFromAddr sh (nameFromAddr bi (Except.ok ""))

/-- Body of _extract_address_from_order (lines 593-611). -/
def _extract_address_from_order (sh bi : Option Address) : Except PyErr String :=
  addrFromAddr sh (addrFromAddr bi (Except.ok ""))

/-- Body of _extract_phone_from_order (lines 613-621). -/
def _extract_phone_from_order (sh bi : Option Address) : Except PyErr String :=
  phoneFromAddr sh (phoneFromAddr bi (Except.ok ""))

/-- Body of _extract_name_from_customer (lines 623-637).  The customer is a
dict by the time this runs (a null customer raises earlier); its
default_address may still be null. -/
def _extract_name_from_customer (cu : Customer) (da : Option Address) :
    Except PyErr String :=
  if getTruthy cu.first_name || getTruthy cu.last_name then
    ebind (stripGet cu.first_name) fun fn =>
    ebind (stripGet cu.last_name) fun ln =>
    if fn ≠ "" || ln ≠ "" then Except.ok (pyStrip (fn ++ " " ++ ln))
    else nameFromAddr da (Except.ok "Customer")
  else nameFromAddr da (Except.ok "Customer")

/-- Body of _extract_address_from_customer (lines 639-648). -/
def _extract_address_from_customer (da : Option Address) : Except PyErr String :=
  addrFromAddr da (Except.ok "Address Not Provided")

/-- Body of _extract_phone_from_customer (lines 650-658). -/
def _extract_phone_from_customer (cu : Customer) (da : Option Address) :
    Except PyErr String :=
  if getTruthy cu.phone then stripGet cu.phone
  else phoneFromAddr da (Except.ok "+374 00 000 000")

/-- Body of _extract_city (lines 660-680): shipping, then billing, then the
customer's default address, then the literal default. -/
def _extract_city (sh bi da : Option Address) : Except PyErr String :=
  cityFromAddr sh (cityFromAddr bi (cityFromAddr da (Except.ok "Yerevan")))

/-- Body of _extract_province (lines 682-696): the raw province value is
returned unstripped, defaulting to the literal default. -/
def _extract_province (sh bi da : Option Address) : Except PyErr String :=
  provFromAddr sh (provFromAddr bi (provFromAddr da (Except.ok "Yerevan")))

/-- Body of extract_customer_data (lines 519-573): order-level data first,
customer data as fallback, mirroring statement order.  A null
shipping_address, billing_address or customer raises AttributeError at the
first attribute access on it, exactly where the Python code would. -/
def extract_customer_data (o : Order) : Except PyErr CustomerData :=
  let sh := getAddrDict o.shipping_address
  let bi := getAddrDict o.billing_address
  match getCustDict o.customer with
  | none => Except.error PyErr.attributeError
  | some cu =>
    let da : Option Address :=
      match cu.default_address with
      | none => some {}
      | some none => none
      | some (some a) => some a
    ebind (_extract_name_from_order sh bi) fun name0 =>
    ebind (_extract_address_from_order sh bi) fun addr0 =>
    ebind (if pyTruthy o.phone then Except.ok (o.phone.getD "")
           else _extract_phone_from_order sh bi) fun phone0 =>
    let email0 := if pyTruthy o.email then o.email.getD "" else o.contact_email.getD ""
    ebind (if name0 = "" || name0 = "Customer"
           then _extract_name_from_customer cu da else Except.ok name0) fun name1 =>
    ebind (if addr0 = "" || addr0 = "Address Not Provided"
           then _extract_address_from_customer da else Except.ok addr0) fun addr1 =>
    ebind (if phone0 = "" || phone0 = "+374 00 000 000"
           then _extract_phone_from_customer cu da else Except.ok phone0) fun phone1 =>
    let email1 := if email0 = "" then cu.email.getD "" else email0
    ebind (_extract_city sh bi da) fun city =>
    ebind (_extract_province sh bi da) fun province =>
    Except.ok { name := name1, address := addr1, phone := phone1,
                city := city, province := province, email := email1 }

/-! ## Lemmas about pyStrip -/

theorem pyStrip_data (s : String) :
    (pyStrip s).data = List.rdropWhile pyWS (s.data.dropWhile pyWS) := rfl

theorem data_ne_nil {s : String} (h : s ≠ "") : s.data ≠ [] := by
  intro hd
  exact h (String.ext (hd.trans rfl))

/-- If stripping is the identity on s, then both the leading and the trailing
strip are already the identity on s.data. -/
theorem strip_parts {s : String} (h : pyStrip s = s) :
    s.data.dropWhile pyWS = s.data ∧ List.rdropWhile pyWS s.data = s.data := by
  have hd : List.rdropWhile pyWS (s.data.dropWhile pyWS) = s.data := congrArg String.data h
  have h1 : (s.data.dropWhile pyWS).length ≤ s.data.length :=
    (List.dropWhile_suffix pyWS).length_le
  have h2 : (List.rdropWhile pyWS (s.data.dropWhile pyWS)).length ≤
      (s.data.dropWhile pyWS).length :=
    (List.rdropWhile_prefix pyWS _).length_le
  rw [hd] at h2
  have hlen : (s.data.dropWhile pyWS).length = s.data.length := le_antisymm h1 h2
  have hL : s.data.dropWhile pyWS = s.data :=
    (List.dropWhile_suffix pyWS).eq_of_length hlen
  refine ⟨hL, ?_⟩
  rw [hL] at hd
  exact hd

theorem dropWhile_append_left {l m : List Char}
    (hl : l.dropWhile pyWS = l) (hne : l ≠ []) :
    (l ++ m).dropWhile pyWS = l ++ m := by
  cases l with
  | nil => exact absurd rfl hne
  | cons a t =>
    have ha : ¬ pyWS a = true := by
      have := List.dropWhile_eq_self_iff.mp hl
      simpa using this (by simp)
    simp [List.dropWhile_cons, ha]

theorem rdropWhile_append_right {l m : List Char}
    (hm : List.rdropWhile pyWS m = m) (hne : m ≠ []) :
    List.rdropWhile pyWS (l ++ m) = l ++ m := by
  rw [List.rdropWhile_eq_self_iff]
  intro hlm
  have hlast : (l ++ m).getLast hlm = m.getLast hne := List.getLast_append' l m hne
  rw [hlast]
  exact List.rdropWhile_eq_self_iff.mp hm hne

/-- Stripping a concatenation of two already-stripped nonempty strings around
a single space is the identity. -/
theorem pyStrip_sep {a b : String} (ha : pyStrip a = a) (ha' : a ≠ "")
    (hb : pyStrip b = b) (hb' : b ≠ "") :
    pyStrip (a ++ " " ++ b) = a ++ " " ++ b := by
  apply String.ext
  rw [pyStrip_data]
  have hdata : (a ++ " " ++ b).data = a.data ++ (' ' :: b.data) := by
    simp
  rw [hdata]
  rw [dropWhile_append_left (strip_parts ha).1 (data_ne_nil ha')]
  have : a.data ++ (' ' :: b.data) = (a.data ++ [' ']) ++ b.data := by simp
  rw [this, rdropWhile_append_right (strip_parts hb).2 (data_ne_nil hb')]

/-- Stripping an already-stripped nonempty string with a trailing space
removes exactly that space. -/
theorem pyStrip_trailing {a : String} (ha : pyStrip a = a) (ha' : a ≠ "") :
    pyStrip (a ++ " ") = a := by
  apply String.ext
  rw [pyStrip_data]
  have hdata : (a ++ " ").data = a.data ++ [' '] := by simp
  rw [hdata]
  rw [dropWhile_append_left (strip_parts ha).1 (data_ne_nil ha')]
  rw [List.rdropWhile_concat_pos _ _ _ (by simp [pyWS])]
  exact (strip_parts ha).2

theorem append_sep_ne_empty (a b : String) :
    a ++ " " ++ b ≠ "" := by
  intro h
  have : (a ++ " " ++ b).data = [] := by rw [h]
  simp at this

theorem pyStrip_empty : pyStrip "" = "" := rfl

/-! ## Well-typed objects and the helper lemmas: the extraction helpers
return a value whenever the address and customer objects they touch are
dicts (possibly empty) none of whose string sub-fields is a present null. -/

/-- No string sub-field of the address is a present null: every read the
resolver makes on it yields '' (absent key) or a string. -/
def Address.wellTyped (a : Address) : Prop :=
  a.first_name ≠ some none ∧ a.last_name ≠ some none ∧ a.address1 ≠ some none ∧
  a.address2 ≠ some none ∧ a.phone ≠ some none ∧ a.city ≠ some none ∧
  a.province ≠ some none

/-- None of the customer sub-fields the resolver strips is a present null. -/
def Customer.wellTyped (c : Customer) : Prop :=
  c.first_name ≠ some none ∧ c.last_name ≠ some none ∧ c.phone ≠ some none

/-- An address-valued order field that the resolver can traverse without an
AttributeError on any path: absent, or an object with no present-null string
sub-field. -/
def AddrObjOk : Option (Option Address) → Prop
  | none => True
  | some none => False
  | some (some a) => a.wellTyped

/-- A customer field the resolver can traverse without an AttributeError on
any path: absent, or an object whose stripped sub-fields are not present
null and whose default_address is itself absent or a well-typed object. -/
def CustObjOk : Option (Option Customer) → Prop
  | none => True
  | some none => False
  | some (some c) => c.wellTyped ∧ AddrObjOk c.default_address

theorem emptyAddr_wellTyped : ({} : Address).wellTyped := by
  refine ⟨?_, ?_, ?_, ?_, ?_, ?_, ?_⟩ <;> simp

theorem emptyCust_wellTyped : ({} : Customer).wellTyped := by
  refine ⟨?_, ?_, ?_⟩ <;> simp

theorem stripGet_isOk {f : Option (Option String)} (h : f ≠ some none) :
    ∃ s, stripGet f = Except.ok s := by
  match f with
  | none => exact ⟨"", rfl⟩
  | some none => exact absurd rfl h
  | some (some s) => exact ⟨pyStrip s, rfl⟩

theorem eok_bind {x : Except PyErr α} {f : α → Except PyErr β}
    (hx : ∃ v, x = Except.ok v) (hf : ∀ v, ∃ w, f v = Except.ok w) :
    ∃ w, ebind x f = Except.ok w := by
  obtain ⟨v, hv⟩ := hx
  rw [hv, ebind_ok]
  exact hf v

theorem eok_ite {c : Prop} [Decidable c] {x y : Except PyErr α}
    (hx : ∃ v, x = Except.ok v) (hy : ∃ v, y = Except.ok v) :
    ∃ v, (if c then x else y) = Except.ok v := by
  split
  · exact hx
  · exact hy

theorem nameFromAddr_isOk {a : Address} (ha : a.wellTyped)
    {k : Except PyErr String} (hk : ∃ s, k = Except.ok s) :
    ∃ s, nameFromAddr (some a) k = Except.ok s := by
  obtain ⟨hfn, hln, -, -, -, -, -⟩ := ha
  simp only [nameFromAddr]
  split
  · exact eok_bind (stripGet_isOk hfn) fun fn =>
      eok_bind (stripGet_isOk hln) fun ln => eok_ite ⟨_, rfl⟩ hk
  · exact hk

theorem addrFromAddr_isOk {a : Address} (ha : a.wellTyped)
    {k : Except PyErr String} (hk : ∃ s, k = Except.ok s) :
    ∃ s, addrFromAddr (some a) k = Except.ok s := by
  obtain ⟨-, -, h1, h2, -, -, -⟩ := ha
  simp only [addrFromAddr]
  split
  · exact eok_bind (stripGet_isOk h1) fun a1 =>
      eok_bind (stripGet_isOk h2) fun a2 => eok_ite ⟨_, rfl⟩ hk
  · exact hk

theorem phoneFromAddr_isOk {a : Address} (ha : a.wellTyped)
    {k : Except PyErr String} (hk : ∃ s, k = Except.ok s) :
    ∃ s, phoneFromAddr (some a) k = Except.ok s := by
  obtain ⟨-, -, -, -, hp, -, -⟩ := ha
  simp only [phoneFromAddr]
  split
  · exact stripGet_isOk hp
  · exact hk

theorem cityFromAddr_isOk {a : Address} (ha : a.wellTyped)
    {k : Except PyErr String} (hk : ∃ s, k = Except.ok s) :
    ∃ s, cityFromAddr (some a) k = Except.ok s := by
  obtain ⟨-, -, -, -, -, hc, -⟩ := ha
  simp only [cityFromAddr]
  split
  · exact eok_bind (stripGet_isOk hc) fun c => eok_ite ⟨_, rfl⟩ hk
  · exact hk

theorem provFromAddr_isOk {a : Address} {k : Except PyErr String}
    (hk : ∃ s, k = Except.ok s) :
    ∃ s, provFromAddr (some a) k = Except.ok s := by
  simp only [provFromAddr]
  split
  · exact ⟨_, rfl⟩
  · exact hk

theorem name_from_order_isOk {a b : Address} (ha : a.wellTyped)
    (hb : b.wellTyped) :
    ∃ s, _extract_name_from_order (some a) (some b) = Except.ok s :=
  nameFromAddr_isOk ha (nameFromAddr_isOk hb ⟨"", rfl⟩)

theorem address_from_order_isOk {a b : Address} (ha : a.wellTyped)
    (hb : b.wellTyped) :
    ∃ s, _extract_address_from_order (some a) (some b) = Except.ok s :=
  addrFromAddr_isOk ha (addrFromAddr_isOk hb ⟨"", rfl⟩)

theorem phone_from_order_isOk {a b : Address} (ha : a.wellTyped)
    (hb : b.wellTyped) :
    ∃ s, _extract_phone_from_order (some a) (some b) = Except.ok s :=
  phoneFromAddr_isOk ha (phoneFromAddr_isOk hb ⟨"", rfl⟩)

theorem name_from_customer_isOk {cu : Customer} {d : Address}
    (hcu : cu.wellTyped) (hd : d.wellTyped) :
    ∃ s, _extract_name_from_customer cu (some d) = Except.ok s := by
  simp only [_extract_name_from_customer]
  split
  · exact eok_bind (stripGet_isOk hcu.1) fun fn =>
      eok_bind (stripGet_isOk hcu.2.1) fun ln =>
      eok_ite ⟨_, rfl⟩ (nameFromAddr_isOk hd ⟨_, rfl⟩)
  · exact nameFromAddr_isOk hd ⟨_, rfl⟩

theorem address_from_customer_isOk {d : Address} (hd : d.wellTyped) :
    ∃ s, _extract_address_from_customer (some d) = Except.ok s :=
  addrFromAddr_isOk hd ⟨_, rfl⟩

theorem phone_from_customer_isOk {cu : Customer} {d : Address}
    (hcu : cu.wellTyped) (hd : d.wellTyped) :
    ∃ s, _extract_phone_from_customer cu (some d) = Except.ok s := by
  simp only [_extract_phone_from_customer]
  split
  · exact stripGet_isOk hcu.2.2
  · exact phoneFromAddr_isOk hd ⟨_, rfl⟩

theorem city_isOk {a b d : Address} (ha : a.wellTyped) (hb : b.wellTyped)
    (hd : d.wellTyped) :
    ∃ s, _extract_city (some a) (some b) (some d) = Except.ok s :=
  cityFromAddr_isOk ha (cityFromAddr_isOk hb (cityFromAddr_isOk hd ⟨_, rfl⟩))

theorem province_isOk {a b d : Address} :
    ∃ s, _extract_province (some a) (some b) (some d) = Except.ok s :=
  provFromAddr_isOk (provFromAddr_isOk (provFromAddr_isOk ⟨_, rfl⟩))

/-! ## Claim C9 -/

/-- Claim C9 counterexample: the claim says resolve never fails, including on
orders where shipping_address is present with a null value; but
extract_customer_data on an order whose shipping_address is null raises
AttributeError (shipping_address.get is called on None in
_extract_name_from_order). -/
theorem claim_C9_counterexample :
    extract_customer_data { id := 1, shipping_address := some none } =
      Except.error PyErr.attributeError := rfl

/-- Claim C9 (amended): resolve is total on every order whose
shipping_address, billing_address, customer and customer default_address are
each absent or object-valued with no present-null string sub-field; outside
that domain a present null can raise AttributeError — at the object level (a
null shipping_address always raises) and equally at the sub-field level (a
null address2 or last_name inside an otherwise usable object raises at its
.strip()). -/
theorem claim_C9_amended_total (o : Order)
    (h1 : AddrObjOk o.shipping_address)
    (h2 : AddrObjOk o.billing_address)
    (h3 : CustObjOk o.customer) :
    ∃ cd, extract_customer_data o = Except.ok cd := by
  obtain ⟨a, ha, haw⟩ :
      ∃ a, getAddrDict o.shipping_address = some a ∧ a.wellTyped := by
    cases hx : o.shipping_address with
    | none => exact ⟨{}, rfl, emptyAddr_wellTyped⟩
    | some y =>
      cases y with
      | none => rw [hx] at h1; exact h1.elim
      | some a => exact ⟨a, rfl, by rw [hx] at h1; exact h1⟩
  obtain ⟨b, hb, hbw⟩ :
      ∃ b, getAddrDict o.billing_address = some b ∧ b.wellTyped := by
    cases hx : o.billing_address with
    | none => exact ⟨{}, rfl, emptyAddr_wellTyped⟩
    | some y =>
      cases y with
      | none => rw [hx] at h2; exact h2.elim
      | some b => exact ⟨b, rfl, by rw [hx] at h2; exact h2⟩
  obtain ⟨c, d, hc, hd, hcw, hdw⟩ : ∃ c d, getCustDict o.customer = some c ∧
      (match c.default_address with
        | none => some ({} : Address)
        | some none => none
        | some (some x) => some x) = some d ∧ c.wellTyped ∧ d.wellTyped := by
    cases hx : o.customer with
    | none =>
      exact ⟨{}, {}, rfl, rfl, emptyCust_wellTyped, emptyAddr_wellTyped⟩
    | some y =>
      cases y with
      | none => rw [hx] at h3; exact h3.elim
      | some c =>
        rw [hx] at h3
        obtain ⟨hcw, hda⟩ := h3
        cases hdx : c.default_address with
        | none => exact ⟨c, {}, rfl, by rw [hdx], hcw, emptyAddr_wellTyped⟩
        | some z =>
          cases z with
          | none => rw [hdx] at hda; exact hda.elim
          | some d =>
            exact ⟨c, d, rfl, by rw [hdx], hcw, by rw [hdx] at hda; exact hda⟩
  simp only [extract_customer_data, ha, hb, hc, hd]
  refine eok_bind (name_from_order_isOk haw hbw) fun n0 => ?_
  refine eok_bind (address_from_order_isOk haw hbw) fun ad0 => ?_
  refine eok_bind (eok_ite ⟨_, rfl⟩ (phone_from_order_isOk haw hbw)) fun p0 => ?_
  refine eok_bind (eok_ite (name_from_customer_isOk hcw hdw) ⟨_, rfl⟩) fun n1 => ?_
  refine eok_bind (eok_ite (address_from_customer_isOk hdw) ⟨_, rfl⟩) fun ad1 => ?_
  refine eok_bind (eok_ite (phone_from_customer_isOk hcw hdw) ⟨_, rfl⟩) fun p1 => ?_
  refine eok_bind (city_isOk haw hbw hdw) fun ct => ?_
  refine eok_bind province_isOk fun pv => ?_
  exact ⟨_, rfl⟩

/-- Claim C9 amended witness: an order with all nested objects absent
satisfies the hypotheses, and resolve returns a profile on it. -/
theorem claim_C9_amended_witness :
    ∃ cd, extract_customer_data { id := 5 } = Except.ok cd :=
  claim_C9_amended_total { id := 5 } True.intro True.intro True.intro

/-! ## Claim C8 -/

/-- A billing address carrying only name, street, and phone (the billing-only
scenario of the claim: the billing address has no city or province of its
own, so the literal defaults apply to those fields). -/
def billingAddr (fn ln a1 ph : String) : Address :=
  { first_name := some (some fn), last_name := some (some ln),
    address1 := some (some a1), phone := some (some ph) }

/-- An order with only a billing address: no shipping address, no customer
object, no order-level email or phone. -/
def billingOnlyOrder (fn ln a1 ph : String) : Order :=
  { id := 1, billing_address := some (some (billingAddr fn ln a1 ph)) }

/-- Claim C8: on an order with only a billing address (name, street, phone),
resolve returns the billing name, billing address and billing phone, and the
literal defaults for city, province and email; and on an order with nothing
populated it returns exactly the documented literal defaults for every
field. -/
theorem claim_C8_resolver_priority (fn ln a1 ph : String)
    (hfn : pyStrip fn = fn) (hfn' : fn ≠ "")
    (hln : pyStrip ln = ln) (hln' : ln ≠ "")
    (ha1 : pyStrip a1 = a1) (ha1' : a1 ≠ "")
    (hph : pyStrip ph = ph) (hph' : ph ≠ "") :
    extract_customer_data (billingOnlyOrder fn ln a1 ph) =
      Except.ok { name := fn ++ " " ++ ln, address := a1, phone := ph,
                  city := "Yerevan", province := "Yerevan", email := "" } ∧
    extract_customer_data { id := 1 } =
      Except.ok { name := "Customer", address := "Address Not Provided",
                  phone := "+374 00 000 000", city := "Yerevan",
                  province := "Yerevan", email := "" } := by
  refine ⟨?_, rfl⟩
  have hname : _extract_name_from_order (some {}) (some (billingAddr fn ln a1 ph)) =
      Except.ok (fn ++ " " ++ ln) := by
    simp only [_extract_name_from_order, nameFromAddr, billingAddr, getTruthy,
      stripGet, ebind_ok, pyStrip_empty]
    simp [hfn, hln, hfn', pyStrip_sep hfn hfn' hln hln']
  have haddr : _extract_address_from_order (some {}) (some (billingAddr fn ln a1 ph)) =
      Except.ok a1 := by
    simp only [_extract_address_from_order, addrFromAddr, billingAddr, getTruthy,
      stripGet, ebind_ok, pyStrip_empty]
    simp [ha1, pyStrip_trailing ha1 ha1', ha1']
  have hphone : _extract_phone_from_order (some {}) (some (billingAddr fn ln a1 ph)) =
      Except.ok ph := by
    simp only [_extract_phone_from_order, phoneFromAddr, billingAddr, getTruthy,
      stripGet]
    simp [hph, hph']
  simp only [extract_customer_data, billingOnlyOrder, getAddrDict, getCustDict,
    hname, haddr, hphone, ebind_ok]
  rcases eq_or_ne (fn ++ " " ++ ln) "Customer" with hc1 | hc1 <;>
    rcases eq_or_ne a1 "Address Not Provided" with hc2 | hc2 <;>
      rcases eq_or_ne ph "+374 00 000 000" with hc3 | hc3 <;>
        simp [hc1, hc2, hc3, append_sep_ne_empty fn ln, ha1', hph', ebind,
          _extract_name_from_customer, _extract_address_from_customer,
          _extract_phone_from_customer, _extract_city, _extract_province,
          nameFromAddr, addrFromAddr, phoneFromAddr, cityFromAddr, provFromAddr,
          getTruthy, stripGet, pyTruthy, billingAddr]

/-- Claim C8 witness: the theorem applied to a concrete billing-only order. -/
theorem claim_C8_witness :
    extract_customer_data (billingOnlyOrder "Ani" "H" "5 Main St" "+37491234567") =
      Except.ok { name := "Ani" ++ " " ++ "H", address := "5 Main St",
                  phone := "+37491234567", city := "Yerevan",
                  province := "Yerevan", email := "" } ∧
    extract_customer_data { id := 1 } =
      Except.ok { name := "Customer", address := "Address Not Provided",
                  phone := "+374 00 000 000", city := "Yerevan",
                  province := "Yerevan", email := "" } :=
  claim_C8_resolver_priority "Ani" "H" "5 Main St" "+37491234567"
    (by decide) (by decide) (by decide) (by decide)
    (by decide) (by decide) (by decide) (by decide)

/-! ## Receipt data preparation (src/app.py lines 69-194) -/

/-- Body of _extract_hs_code (lines 164-183): first category code contained
in the uppercased SKU, in the dict's insertion order. -/
def _extract_hs_code (sku : String) : Option String :=
  let category_mapping : List (String × String) :=
    [("CLOTH", "6109"), ("ELEC", "8517"), ("FOOD", "1905"),
     ("BOOK", "4901"), ("BEAUTY", "3304")]
  (category_mapping.find? fun p => decide (p.1.data <:+: sku.toUpper.data)).map
    fun p => p.2

/-- Python format 03d applied to a small positive number. -/
def pad3 (n : Nat) : String :=
  let s := toString n
  String.mk (List.replicate (3 - s.length) '0') ++ s

/-- One product line of the fiscal receipt payload. -/
structure ReceiptProduct where
  adgCode : String
  goodCode : String
  goodName : String
  quantity : ℚ
  unit : String
  price : ℚ
  discount : Int
  discountType : Int
  receiptProductId : Int
  dep : Int
deriving DecidableEq, Repr

/-- The receipt data dict built by _prepare_receipt_data. -/
structure ReceiptData where
  products : List ReceiptProduct
  additionalDiscount : Int := 0
  additionalDiscountType : Int := 0
  cashAmount : ℚ
  cardAmount : ℚ
  partialAmount : Int := 0
  prePaymentAmount : Int := 0
  partnerTin : String := "0"
deriving DecidableEq, Repr

/-- Body of _prepare_receipt_data (lines 69-162): one product per line item
(price is the per-line total, rounded to 2 decimals), a synthetic line when
the order has no items, and a cash/card split driven by the gateway hint.
The except branch returning None is unreachable in the model because the
numeric fields are already parsed. -/
def _prepare_receipt_data (o : Order) : Option ReceiptData :=
  let products : List ReceiptProduct := o.line_items.enum.map fun p =>
    let sku := p.2.sku.getD ""
    let good_code := if sku ≠ "" then sku.take 20 else "SHOP" ++ pad3 (p.1 + 1)
    let adg_code := if sku ≠ "" then (_extract_hs_code sku).getD "8471" else "8471"
    { adgCode := adg_code, goodCode := good_code,
      goodName := p.2.name.take 50, quantity := (p.2.quantity : ℚ),
      unit := "piece", price := pyRound2 (p.2.price * p.2.quantity),
      discount := 0, discountType := 0, receiptProductId := (p.1 : Int), dep := 1 }
  let total_amount : ℚ :=
    o.line_items.foldl (fun acc it => acc + it.price * it.quantity) 0
  let pt : List ReceiptProduct × ℚ :=
    if products.isEmpty then
      let ta := o.total_price.getD 0
      ([{ adgCode := "8471", goodCode := "ONLINE001",
          goodName := "Online Order Items", quantity := 1, unit := "piece",
          price := pyRound2 ta, discount := 0, discountType := 0,
          receiptProductId := 0, dep := 1 }], ta)
    else (products, total_amount)
  let gateway := pyLower (o.gateway.getD "")
  let amounts : ℚ × ℚ :=
    if "cash".data <:+: gateway.data then (pyRound2 pt.2, 0)
    else (0, pyRound2 pt.2)
  some { products := pt.1, cashAmount := amounts.1, cardAmount := amounts.2 }

/-! ## Courier adapter (src/app.py lines 698-789, 820-827) -/

/-- Body of map_region_to_province (lines 820-827). -/
def map_region_to_province (region_name : String) : Int :=
  let province_mapping : List (String × Int) :=
    [("Aragatsotn", 1), ("Ararat", 2), ("Armavir", 3), ("Gegharkunik", 4),
     ("Kotayk", 5), ("Lori", 6), ("Shirak", 7), ("Syunik", 8), ("Tavush", 9),
     ("Vayots Dzor", 10), ("Yerevan", 11)]
  (province_mapping.lookup region_name).getD 11

/-- One entry of the courier order_products array: name capped at 50 chars
and the per-unit price in minor units, int(float(price) * 100). -/
structure OrderProduct where
  name : String
  price : Int
deriving DecidableEq, Repr

/-- Lines 712-725 of create_courier_order: the order_products array, with a
synthetic default item when the order has no line items. -/
def buildOrderProducts (items : List LineItem) : List OrderProduct :=
  let ps : List OrderProduct :=
    items.map fun it => { name := it.name.take 50, price := pyTrunc (it.price * 100) }
  if ps.isEmpty then [{ name := "Online Order Items", price := 100 }] else ps

/-- The create-draft-order payload (lines 736-752). -/
structure CourierPayload where
  address_to : String
  province_id : Int
  city : String
  package_type : String := "Parcel"
  parcel_weight : String := "1.0"
  order_products : List OrderProduct
  recipient_type : String := "Individual"
  person_name : String
  phone : String
  barcode_id : String
  is_payed : Int := 1
  delivery_method : String := "home"
  return_receipt : Bool := false
  notes : String
  label : Int := 0
deriving DecidableEq, Repr

/-- Barcode generation (lines 727-733): the bare order id on the first
attempt, order id plus a retry suffix on retries. -/
def barcodeFor (oid : String) (retry : Nat) : String :=
  if retry = 0 then oid else oid ++ "-retry" ++ toString retry

/-- The notes field (line 750). -/
def courierNotes (o : Order) (email : String) : String :=
  "Shopify Order #" ++ (match o.order_number with
    | none => ""
    | some n => toString n) ++ " - " ++ email

/-- Payload construction from the resolved customer data (lines 736-752),
with the documented truncations. -/
def buildCourierPayload (o : Order) (cd : CustomerData) (barcode : String) :
    CourierPayload :=
  { address_to := cd.address.take 100,
    province_id := map_region_to_province cd.province,
    city := cd.city.take 50,
    order_products := buildOrderProducts o.line_items,
    person_name := cd.name.take 50,
    phone := cd.phone.take 20,
    barcode_id := barcode,
    notes := courierNotes o cd.email }

/-- Courier service response for one create-draft-order POST, keyed by the
submitted barcode.  In the ok case the three options are the key, barcode_id
and id fields of the response order object (some s meaning present and
truthy). -/
inductive CourierResp where
  | ok (key barcodeIdField idField : Option String)
  | okUnparseable
  | taken
  | err (status : Nat) (body : String)
deriving DecidableEq, Repr

/-- Python x or y for the tracking-number fallback chain. -/
def orD (x : Option String) (y : String) : String :=
  match x with
  | some s => s
  | none => y

/-- Body of create_courier_order (lines 698-789): resolve the customer data
(propagating any exception), build the payload with the attempt's barcode,
POST, and on a barcode-taken 422 retry recursively with retry_count + 1 while
retry_count < 3.  Returns the tracking number (None on failure, mirroring the
Python return None) together with the chronological list of attempts
(barcode, payload). -/
def create_courier_order (env : String → CourierResp) (o : Order)
    (retry : Nat) : Except PyErr (Option String × List (String × CourierPayload)) :=
  ebind (extract_customer_data o) fun cd =>
    let barcode := barcodeFor (toString o.id) retry
    let payload := buildCourierPayload o cd barcode
    match env barcode with
    | CourierResp.ok k bf idf =>
        Except.ok (some (orD k (orD bf (orD idf barcode))), [(barcode, payload)])
    | CourierResp.okUnparseable =>
        Except.ok (some barcode, [(barcode, payload)])
    | CourierResp.taken =>
        if h : retry < 3 then
          ebind (create_courier_order env o (retry + 1)) fun r =>
            Except.ok (r.1, (barcode, payload) :: r.2)
        else Except.ok (none, [(barcode, payload)])
    | CourierResp.err _ _ => Except.ok (none, [(barcode, payload)])
termination_by 4 - retry
decreasing_by omega

/-! ## Claim C7 -/

/-- The shipping address of the claim's concrete order 1001. -/
def shipAddr1001 : Address :=
  { first_name := some (some "Ani"), last_name := some (some "H"),
    address1 := some (some "5 Main St"), city := some (some "Yerevan"),
    province := some (some "Yerevan"), phone := some (some "+37491234567") }

/-- The claim's concrete order 1001: one Widget at 9.99, quantity 2. -/
def order1001 : Order :=
  { id := 1001, line_items := [{ name := "Widget", price := 999/100, quantity := 2 }],
    shipping_address := some (some shipAddr1001) }

/-- The resolved profile the claim states for order 1001. -/
def profile1001 : CustomerData :=
  { name := "Ani H", address := "5 Main St", phone := "+37491234567",
    city := "Yerevan", province := "Yerevan", email := "" }

/-- A healthy courier service: every create-draft-order POST succeeds and
returns a response whose order object has key TRACK1001. -/
def env1001 : String → CourierResp := fun _ => CourierResp.ok (some "TRACK1001") none none

/-! Evaluation lemmas for the rational arithmetic (proved propositionally,
since rational normalization does not reduce in the kernel). -/

theorem int_fdiv_one (n : ℤ) : Int.fdiv n 1 = n := by
  rcases n with m | m
  · cases m with
    | zero => rfl
    | succ k =>
      show Int.fdiv (Int.ofNat (k + 1)) (Int.ofNat 1) = Int.ofNat (k + 1)
      simp [Int.fdiv, Nat.div_one]
  · show Int.fdiv (Int.negSucc m) (Int.ofNat 1) = Int.negSucc m
    simp [Int.fdiv, Nat.div_one]

theorem ratFloor_intCast (n : ℤ) : ratFloor (n : ℚ) = n := by
  rw [ratFloor, Rat.num_intCast, Rat.den_intCast, Nat.cast_one, int_fdiv_one]

theorem pyTrunc_eq (q : ℚ) (m : ℤ) (h : q = (m : ℚ)) : pyTrunc q = m := by
  subst h
  rcases le_or_lt 0 m with hm | hm
  · rw [pyTrunc, if_neg (not_lt.mpr (by exact_mod_cast hm)), ratFloor_intCast]
  · rw [pyTrunc, if_pos (by exact_mod_cast hm)]
    rw [show -((m : ℚ)) = ((-m : ℤ) : ℚ) by push_cast; ring, ratFloor_intCast]
    omega

theorem pyRound2_eq (q : ℚ) (m : ℤ) (h : q * 100 = (m : ℚ)) :
    pyRound2 q = (m : ℚ) / 100 := by
  rw [pyRound2]
  simp only [h, ratFloor_intCast]
  norm_num

/-- Claim C7 counterexample: for the concrete order 1001 the single courier
shipment call carries order_products with price int(9.99 * 100) = 999 — the
per-unit price in minor units, quantity not multiplied — not 1998 as the
claim states. -/
theorem claim_C7_counterexample :
    create_courier_order env1001 order1001 0 =
      Except.ok (some "TRACK1001",
        [("1001", buildCourierPayload order1001 profile1001 "1001")]) ∧
    (buildCourierPayload order1001 profile1001 "1001").order_products ≠
      [{ name := "Widget", price := 1998 }] := by
  constructor
  · have hextract : extract_customer_data order1001 = Except.ok profile1001 := rfl
    rw [create_courier_order.eq_def, hextract, ebind_ok]
    simp only [env1001, orD]
    rfl
  · have h : (buildCourierPayload order1001 profile1001 "1001").order_products =
        [{ name := "Widget", price := 999 }] := by
      simp only [buildCourierPayload, buildOrderProducts, order1001]
      simp
      exact ⟨rfl, pyTrunc_eq _ 999 (by norm_num)⟩
    rw [h]
    decide

/-- Claim C7 (amended): for the concrete order 1001 the resolver produces
exactly the claimed profile, confirming the order yields one courier call
whose order_products equal the Widget at price 999 (per-unit minor units,
int(9.99 * 100)), and the receipt data has exactly one product line at price
19.98. -/
theorem claim_C7_amended :
    extract_customer_data order1001 = Except.ok profile1001 ∧
    create_courier_order env1001 order1001 0 =
      Except.ok (some "TRACK1001",
        [("1001", buildCourierPayload order1001 profile1001 "1001")]) ∧
    (buildCourierPayload order1001 profile1001 "1001").order_products =
      [{ name := "Widget", price := 999 }] ∧
    (_prepare_receipt_data order1001).map (fun rd => rd.products.map fun p => p.price) =
      some [(1998 : ℚ) / 100] := by
  refine ⟨rfl, ?_, ?_, ?_⟩
  · have hextract : extract_customer_data order1001 = Except.ok profile1001 := rfl
    rw [create_courier_order.eq_def, hextract, ebind_ok]
    simp only [env1001, orD]
    rfl
  · simp only [buildCourierPayload, buildOrderProducts, order1001]
    simp
    exact ⟨rfl, pyTrunc_eq _ 999 (by norm_num)⟩
  · simp only [_prepare_receipt_data, order1001]
    simp
    have := pyRound2_eq ((999 : ℚ) / 100 * 2) 1998 (by norm_num)
    simpa using this

/-! ## Claim C6 -/

theorem append_left_cancel_str {a b c : String} (h : a ++ b = a ++ c) : b = c := by
  have hd := congrArg String.data h
  simp only [String.data_append] at hd
  exact String.ext (List.append_cancel_left hd)

theorem bc_ne_left (oid s : String) (hs : s ≠ "") : oid ≠ oid ++ s := by
  intro h
  have hl := congrArg String.length h
  rw [String.length_append] at hl
  have hs' : s.length ≠ 0 := fun h0 => hs (String.ext (List.length_eq_zero.mp h0))
  omega

theorem bc_cancel (oid a b : String) (hab : a ≠ b) : oid ++ a ≠ oid ++ b :=
  fun h => hab (append_left_cancel_str h)

/-- The barcodes of the four possible attempts of one create_courier_order
invocation are pairwise distinct. -/
theorem barcodeFor_inj (oid : String) {i j : ℕ} (hi : i ≤ 3) (hj : j ≤ 3)
    (hij : barcodeFor oid i = barcodeFor oid j) : i = j := by
  interval_cases i <;> interval_cases j <;>
    simp [barcodeFor] at hij <;>
    first
    | rfl
    | (rw [String.append_assoc] at hij
       refine absurd hij (bc_ne_left _ _ ?_)
       decide)
    | (rw [String.append_assoc] at hij
       refine absurd hij.symm (bc_ne_left _ _ ?_)
       decide)
    | (rw [String.append_assoc, String.append_assoc] at hij
       refine absurd hij (bc_cancel _ _ _ ?_)
       decide)

theorem list_range_one : List.range 1 = [0] := rfl

theorem attempts_shift (oid : String) (o : Order) (cd : CustomerData) (retry n : ℕ) :
    (List.range (n + 1)).map (fun i =>
      (barcodeFor oid (retry + i), buildCourierPayload o cd (barcodeFor oid (retry + i)))) =
    (barcodeFor oid retry, buildCourierPayload o cd (barcodeFor oid retry)) ::
      (List.range n).map (fun i =>
        (barcodeFor oid (retry + 1 + i),
         buildCourierPayload o cd (barcodeFor oid (retry + 1 + i)))) := by
  rw [List.range_succ_eq_map, List.map_cons, List.map_map]
  congr 1
  refine List.map_congr_left fun i hi => ?_
  simp only [Function.comp]
  rw [show retry + (i + 1) = retry + 1 + i by omega]

/-- Shape of a create_courier_order invocation starting at a given retry
count: it returns (without raising, once the customer data resolves) a
result together with between 1 and 4 - retry attempts whose barcodes are the
consecutive generated references. -/
theorem cco_spec (env : String → CourierResp) (o : Order) (cd : CustomerData)
    (h : extract_customer_data o = Except.ok cd) :
    ∀ f retry, 4 - retry = f → retry ≤ 3 →
    ∃ res n, create_courier_order env o retry =
        Except.ok (res, (List.range n).map fun i =>
          (barcodeFor (toString o.id) (retry + i),
           buildCourierPayload o cd (barcodeFor (toString o.id) (retry + i)))) ∧
      1 ≤ n ∧ retry + n ≤ 4 := by
  intro f
  induction f with
  | zero => intro retry h0 h3; omega
  | succ f ih =>
    intro retry hf h3
    rcases henv : env (barcodeFor (toString o.id) retry) with ⟨k, bf, idf⟩ | _ | _ | ⟨s, b⟩
    · refine ⟨some (orD k (orD bf (orD idf (barcodeFor (toString o.id) retry)))), 1,
        ?_, le_refl 1, by omega⟩
      rw [create_courier_order.eq_def, h, ebind_ok]
      simp [henv, list_range_one]
    · refine ⟨some (barcodeFor (toString o.id) retry), 1, ?_, le_refl 1, by omega⟩
      rw [create_courier_order.eq_def, h, ebind_ok]
      simp [henv, list_range_one]
    · by_cases hr : retry < 3
      · obtain ⟨res, n, heq, h1, h4⟩ := ih (retry + 1) (by omega) (by omega)
        refine ⟨res, n + 1, ?_, by omega, by omega⟩
        rw [create_courier_order.eq_def, h, ebind_ok]
        simp only [henv]
        rw [dif_pos hr, heq, ebind_ok, attempts_shift]
      · refine ⟨none, 1, ?_, le_refl 1, by omega⟩
        rw [create_courier_order.eq_def, h, ebind_ok]
        simp only [henv]
        rw [dif_neg hr]
        simp [list_range_one]
    · refine ⟨none, 1, ?_, le_refl 1, by omega⟩
      rw [create_courier_order.eq_def, h, ebind_ok]
      simp [henv, list_range_one]

/-- Claim C6 (amended): within one create_courier_order invocation the
references sent to the courier are pairwise distinct (the bare order id,
then id-retry1, id-retry2, id-retry3); on barcode-taken errors the adapter
retries with a reference fresh within the invocation at most 3 times beyond
the initial attempt (at most 4 POSTs) before returning None (permanent
failure); when the first attempt collides and the retry succeeds, the
returned tracking id is the one from the successful attempt's response.  But
the reference sequence is a pure function of the order id and the attempt
index, independent of the courier responses: every invocation restarts at
the bare order id and replays the same suffixes, so references are not
unique across invocations — a later invocation for the same order reuses
earlier attempts' references. -/
theorem claim_C6_amended_reference_retry (env : String → CourierResp) (o : Order)
    (cd : CustomerData) (h : extract_customer_data o = Except.ok cd) :
    ∃ res attempts,
      create_courier_order env o 0 = Except.ok (res, attempts) ∧
      (attempts.map Prod.fst).Nodup ∧
      attempts.length ≤ 4 ∧
      attempts.map Prod.fst =
        ((List.range attempts.length).map fun r => barcodeFor (toString o.id) r) ∧
      ((∀ r, env (barcodeFor (toString o.id) r) = CourierResp.taken) →
        res = none ∧ attempts.length = 4) ∧
      (∀ k bf idf, env (barcodeFor (toString o.id) 0) = CourierResp.taken →
        env (barcodeFor (toString o.id) 1) = CourierResp.ok (some k) bf idf →
        res = some k ∧
        attempts.map Prod.fst =
          [barcodeFor (toString o.id) 0, barcodeFor (toString o.id) 1]) := by
  obtain ⟨res, n, heq, hn1, hn4⟩ := cco_spec env o cd h 4 0 rfl (by omega)
  simp only [Nat.zero_add] at heq hn4
  refine ⟨res, _, heq, ?_, ?_, ?_, ?_, ?_⟩
  · rw [List.map_map]
    have hc : (Prod.fst ∘ fun i =>
        (barcodeFor (toString o.id) i,
         buildCourierPayload o cd (barcodeFor (toString o.id) i))) =
        fun i => barcodeFor (toString o.id) i := rfl
    rw [hc]
    exact List.Nodup.map_on (fun i hi j hj hij =>
      barcodeFor_inj (toString o.id)
        (by simp only [List.mem_range] at hi; omega)
        (by simp only [List.mem_range] at hj; omega) hij) (List.nodup_range n)
  · simp only [List.length_map, List.length_range]
    omega
  · simp only [List.map_map, List.length_map, List.length_range]
    exact List.map_congr_left fun i hi => rfl
  · intro hall
    have e3 : create_courier_order env o 3 = Except.ok (none,
        [(barcodeFor (toString o.id) 3,
          buildCourierPayload o cd (barcodeFor (toString o.id) 3))]) := by
      rw [create_courier_order.eq_def, h, ebind_ok]
      simp only [hall 3]
      rw [dif_neg (by omega)]
    have e2 : create_courier_order env o 2 = Except.ok (none,
        [(barcodeFor (toString o.id) 2,
          buildCourierPayload o cd (barcodeFor (toString o.id) 2)),
         (barcodeFor (toString o.id) 3,
          buildCourierPayload o cd (barcodeFor (toString o.id) 3))]) := by
      rw [create_courier_order.eq_def, h, ebind_ok]
      simp only [hall 2]
      rw [dif_pos (by omega), e3, ebind_ok]
    have e1 : create_courier_order env o 1 = Except.ok (none,
        [(barcodeFor (toString o.id) 1,
          buildCourierPayload o cd (barcodeFor (toString o.id) 1)),
         (barcodeFor (toString o.id) 2,
          buildCourierPayload o cd (barcodeFor (toString o.id) 2)),
         (barcodeFor (toString o.id) 3,
          buildCourierPayload o cd (barcodeFor (toString o.id) 3))]) := by
      rw [create_courier_order.eq_def, h, ebind_ok]
      simp only [hall 1]
      rw [dif_pos (by omega), e2, ebind_ok]
    have e0 : create_courier_order env o 0 = Except.ok (none,
        [(barcodeFor (toString o.id) 0,
          buildCourierPayload o cd (barcodeFor (toString o.id) 0)),
         (barcodeFor (toString o.id) 1,
          buildCourierPayload o cd (barcodeFor (toString o.id) 1)),
         (barcodeFor (toString o.id) 2,
          buildCourierPayload o cd (barcodeFor (toString o.id) 2)),
         (barcodeFor (toString o.id) 3,
          buildCourierPayload o cd (barcodeFor (toString o.id) 3))]) := by
      rw [create_courier_order.eq_def, h, ebind_ok]
      simp only [hall 0]
      rw [dif_pos (by omega), e1, ebind_ok]
    have hcomb := heq.symm.trans e0
    simp only [Except.ok.injEq, Prod.mk.injEq] at hcomb
    obtain ⟨hres, hlist⟩ := hcomb
    refine ⟨hres, ?_⟩
    have hlen := congrArg List.length hlist
    simp only [List.length_map, List.length_range, List.length_cons,
      List.length_nil] at hlen ⊢
    omega
  · intro k bf idf h0 h1'
    have e1 : create_courier_order env o 1 = Except.ok (some k,
        [(barcodeFor (toString o.id) 1,
          buildCourierPayload o cd (barcodeFor (toString o.id) 1))]) := by
      rw [create_courier_order.eq_def, h, ebind_ok]
      simp only [h1']
      simp [orD]
    have e0 : create_courier_order env o 0 = Except.ok (some k,
        [(barcodeFor (toString o.id) 0,
          buildCourierPayload o cd (barcodeFor (toString o.id) 0)),
         (barcodeFor (toString o.id) 1,
          buildCourierPayload o cd (barcodeFor (toString o.id) 1))]) := by
      rw [create_courier_order.eq_def, h, ebind_ok]
      simp only [h0]
      rw [dif_pos (by omega), e1, ebind_ok]
    have hcomb := heq.symm.trans e0
    simp only [Except.ok.injEq, Prod.mk.injEq] at hcomb
    obtain ⟨hres, hlist⟩ := hcomb
    refine ⟨hres, ?_⟩
    rw [hlist]
    rfl

/-- A courier service for which the bare reference 42 is already taken and
any fresh reference succeeds with tracking key TRK42. -/
def env42 : String → CourierResp := fun b =>
  if b = "42" then CourierResp.taken
  else CourierResp.ok (some "TRK42") none none

/-- A courier service (a later run of the same service) that accepts every
reference with tracking key TRK42A. -/
def envOk42 : String → CourierResp := fun _ =>
  CourierResp.ok (some "TRK42A") none none

/-- The customer data the resolver produces for the bare order 42 (all
literal defaults). -/
def cd42 : CustomerData :=
  { name := "Customer", address := "Address Not Provided",
    phone := "+374 00 000 000", city := "Yerevan", province := "Yerevan",
    email := "" }

/-- Claim C6 counterexample: references are not unique across attempts of
different invocations.  A first invocation for order 42 submits references
42 and 42-retry1; a second invocation for the same order (after a restart or
a later trigger) submits the reference 42 again — the bare order id that the
first invocation already used and that was even reported taken — because the
reference sequence is deterministic: attempt 0 is always the bare order
id. -/
theorem claim_C6_counterexample :
    create_courier_order env42 { id := 42 } 0 =
      Except.ok (some "TRK42",
        [("42", buildCourierPayload { id := 42 } cd42 "42"),
         ("42-retry1", buildCourierPayload { id := 42 } cd42 "42-retry1")]) ∧
    create_courier_order envOk42 { id := 42 } 0 =
      Except.ok (some "TRK42A",
        [("42", buildCourierPayload { id := 42 } cd42 "42")]) ∧
    barcodeFor (toString (42 : ℤ)) 0 = "42" := by
  have h : extract_customer_data { id := 42 } = Except.ok cd42 := rfl
  refine ⟨?_, ?_, rfl⟩
  · have e1 : create_courier_order env42 { id := 42 } 1 =
        Except.ok (some "TRK42",
          [("42-retry1", buildCourierPayload { id := 42 } cd42 "42-retry1")]) := by
      rw [create_courier_order.eq_def, h, ebind_ok]
      rfl
    rw [create_courier_order.eq_def, h, ebind_ok]
    have henv : env42 (barcodeFor (toString ({ id := 42 } : Order).id) 0) =
        CourierResp.taken := rfl
    simp only [henv]
    rw [dif_pos (by omega), e1, ebind_ok]
    rfl
  · rw [create_courier_order.eq_def, h, ebind_ok]
    rfl

/-- Claim C6 witness: the amended theorem applied to a concrete order and a
courier service with one barcode collision. -/
theorem claim_C6_witness :
    ∃ res attempts,
      create_courier_order env42 { id := 42 } 0 = Except.ok (res, attempts) ∧
      (attempts.map Prod.fst).Nodup ∧
      attempts.length ≤ 4 ∧
      attempts.map Prod.fst =
        ((List.range attempts.length).map fun r => barcodeFor (toString (42 : ℤ)) r) ∧
      ((∀ r, env42 (barcodeFor (toString (42 : ℤ)) r) = CourierResp.taken) →
        res = none ∧ attempts.length = 4) ∧
      (∀ k bf idf, env42 (barcodeFor (toString (42 : ℤ)) 0) = CourierResp.taken →
        env42 (barcodeFor (toString (42 : ℤ)) 1) = CourierResp.ok (some k) bf idf →
        res = some k ∧
        attempts.map Prod.fst =
          [barcodeFor (toString (42 : ℤ)) 0, barcodeFor (toString (42 : ℤ)) 1]) :=
  claim_C6_amended_reference_retry env42 { id := 42 } cd42 rfl

/-! ## Fiscal receipt service (src/app.py lines 30-67, 196-376)

The EHDMService instance state is its token and its in-memory
receipts_processed dict; the request trace records outbound calls.  Response
fields are Option String with some meaning present-and-truthy. -/

/-- The fields read from a successful print-receipt response. -/
structure PrintResp where
  link : Option String := none
  receiptId : Option String := none
deriving DecidableEq, Repr

/-- The receipt_info dict cached per order (lines 274-279). -/
structure ReceiptInfo where
  receipt_id : Option String
  unique_code : String
  link : Option String
  response : PrintResp
deriving DecidableEq, Repr

/-- Instance state of EHDMService: the JWT token and the in-memory
receipts_processed dict (lines 31-40).  A fresh instance — as constructed by
every processing call, and as exists after a process restart, since the
source writes nothing to disk — has an empty dict. -/
structure EHDMState where
  token : Option String := none
  receipts_processed : List (String × ReceiptInfo) := []
deriving DecidableEq, Repr

/-- Outbound HTTP requests the modelled code can issue. -/
inductive Req where
  | ehdmLoginReq
  | ehdmPrintReq (payload : ReceiptData) (uniqueCode : String)
  | ehdmReverseReq (receiptId : String)
  | shopGetOrder (id : Int)
  | shopPutOrder (id : Int) (tags : String)
  | courierCreateReq (barcode : String) (payload : CourierPayload)
  | shopFulfillReq (id : Int) (tracking : String)
deriving DecidableEq, Repr

/-- Responses of the external services, as one oracle per processing run. -/
structure Env where
  loginToken : Option String := none
  getOrder : Int → Option Order := fun _ => none
  putOrderOk : Bool := true
  printResp : Option PrintResp := none
  reverseOk : Bool := true
  courier : String → CourierResp := fun _ => CourierResp.err 500 ""
  fulfillOk : Bool := true

/-- The receipt URL the code constructs when the response has a receiptId
but no link (line 270; the embedded username comes from the environment and
is irrelevant to the claims). -/
def constructedReceiptUrl (rid : String) : String :=
  "https://store.payx.am/Receipt/2025/U/productSale/10/13/U_" ++ rid ++ "_2009582.pdf"

/-- Body of generate_fiscal_receipt (lines 196-300): return the cached
record when one exists for this order id; fail without a token; otherwise
prepare the receipt data, build the unique code from the order id and the
injected random suffix (capped at 30 chars), POST the print request, and on
success cache and return the receipt info.  rand injects the six random
characters of _generate_unique_code. -/
def generate_fiscal_receipt (env : Env) (st : EHDMState) (rand : String)
    (o : Order) : (Bool × Option ReceiptInfo × String) × EHDMState × List Req :=
  let key := toString o.id
  match st.receipts_processed.lookup key with
  | some info => ((true, some info, "Receipt already exists"), st, [])
  | none =>
    match st.token with
    | none => ((false, none, "No valid authentication token"), st, [])
    | some _ =>
      match _prepare_receipt_data o with
      | none => ((false, none, "Failed to prepare receipt data"), st, [])
      | some receipt_data =>
        let unique_code := ("SHOP" ++ key ++ "_" ++ rand).take 30
        match env.printResp with
        | some resp =>
          let receipt_url : Option String :=
            match resp.link with
            | some l => some l
            | none =>
              match resp.receiptId with
              | some rid => some (constructedReceiptUrl rid)
              | none => none
          let info : ReceiptInfo :=
            { receipt_id := resp.receiptId, unique_code := unique_code,
              link := receipt_url, response := resp }
          ((true, some info, "Receipt generated successfully"),
           { st with receipts_processed := (key, info) :: st.receipts_processed },
           [Req.ehdmPrintReq receipt_data unique_code])
        | none =>
          ((false, none, "EHDM API Error"), st,
           [Req.ehdmPrintReq receipt_data unique_code])

/-- Body of process_order_refund (lines 326-376): fail when no receipt is
cached for the order or the cached record has no receipt id; otherwise POST
the reversal. -/
def process_order_refund (env : Env) (st : EHDMState) (o : Order) :
    (Bool × String) × List Req :=
  let key := toString o.id
  match st.receipts_processed.lookup key with
  | none => ((false, "No receipt found for this order"), [])
  | some info =>
    match info.receipt_id with
    | none => ((false, "No receipt ID available"), [])
    | some rid =>
      if env.reverseOk then
        ((true, "Refund processed successfully"), [Req.ehdmReverseReq rid])
      else ((false, "Refund API Error"), [Req.ehdmReverseReq rid])

/-- A successful generate_fiscal_receipt call leaves its returned record
cached in the instance state under the order's key. -/
theorem gfr_success_lookup (env : Env) (st : EHDMState) (rand : String)
    (o : Order) (info : ReceiptInfo) (st' : EHDMState) (tr : List Req)
    (msg : String)
    (h : generate_fiscal_receipt env st rand o = ((true, some info, msg), st', tr)) :
    st'.receipts_processed.lookup (toString o.id) = some info := by
  rw [generate_fiscal_receipt] at h
  split at h
  · rename_i info0 hc
    simp only [Prod.mk.injEq, Option.some.injEq] at h
    obtain ⟨⟨_, hinfo, _⟩, hst, _⟩ := h
    rw [← hst, ← hinfo]
    exact hc
  · split at h
    · simp at h
    · split at h
      · simp at h
      · split at h
        · rename_i resp hresp
          simp only [Prod.mk.injEq, Option.some.injEq] at h
          obtain ⟨⟨_, hinfo, _⟩, hst, _⟩ := h
          rw [← hst]
          simp [List.lookup, ← hinfo]
        · simp at h

/-- Claim C4: receipt issuance is idempotent per order — when a call for an
order returns success with a record, a subsequent call for the same order id
on the resulting state (any responses, any random suffix) returns the
identical cached record with the already-exists message, leaves the state
unchanged, and issues no remote print request. -/
theorem claim_C4_receipt_idempotent (env env2 : Env) (st : EHDMState)
    (rand rand2 : String) (o : Order) (info : ReceiptInfo) (st' : EHDMState)
    (tr : List Req) (msg : String)
    (h : generate_fiscal_receipt env st rand o = ((true, some info, msg), st', tr)) :
    generate_fiscal_receipt env2 st' rand2 o =
      ((true, some info, "Receipt already exists"), st', []) := by
  have hl := gfr_success_lookup env st rand o info st' tr msg h
  rw [generate_fiscal_receipt, hl]

/-- The cached receipt record used by the C4 and C5 witnesses. -/
def info77 : ReceiptInfo :=
  { receipt_id := some "R77", unique_code := "SHOP77_ABCDEF",
    link := some "L77", response := { link := some "L77", receiptId := some "R77" } }

/-- An EHDMService instance state holding a receipt record for order 77. -/
def st77 : EHDMState :=
  { token := some "T", receipts_processed := [("77", info77)] }

/-- Claim C4 witness: on a state already holding a receipt record for order
77 (so issuance returns success with that record), a second call returns the
identical record, leaves the state unchanged, and issues no request. -/
theorem claim_C4_witness :
    generate_fiscal_receipt { printResp := none } st77 "XYZQRS" { id := 77 } =
      ((true, some info77, "Receipt already exists"), st77, []) :=
  claim_C4_receipt_idempotent { printResp := some {} } { printResp := none }
    st77 "ABCDEF" "XYZQRS" { id := 77 } info77 _ _ _ rfl

/-! ## Claim C5 -/

/-- A healthy receipt service for the C5 counterexample. -/
def envC5 : Env :=
  { loginToken := some "T",
    printResp := some { link := some "L", receiptId := some "R77" } }

/-- Claim C5 counterexample: a receipt for order 77 is issued successfully
and cached in the issuing instance's in-memory dict, yet a refund lookup on
a fresh EHDMService state — the state after a process restart, or of the
fresh instance every processing call constructs, since the source persists
nothing to disk — finds no record and fails, issuing no reversal request. -/
theorem claim_C5_counterexample :
    (generate_fiscal_receipt envC5 { token := some "T" } "ABCDEF" { id := 77 }).1.1 = true ∧
    ((generate_fiscal_receipt envC5 { token := some "T" } "ABCDEF"
        { id := 77 }).2.1.receipts_processed.lookup "77").isSome = true ∧
    process_order_refund envC5 {} { id := 77 } =
      ((false, "No receipt found for this order"), []) :=
  ⟨rfl, rfl, rfl⟩

/-- Claim C5 (amended): the receipt record of a successful issuance is kept
only in the issuing instance's in-memory receipts_processed dict: a refund
looked up on that same instance state finds the record and succeeds, but the
record is not durable — a fresh instance or restarted process has an empty
dict and the refund fails. -/
theorem claim_C5_amended_in_memory_only (env env2 : Env) (st st' : EHDMState)
    (rand msg rid : String) (o : Order) (info : ReceiptInfo) (tr : List Req)
    (h : generate_fiscal_receipt env st rand o = ((true, some info, msg), st', tr))
    (hrid : info.receipt_id = some rid) (hok : env2.reverseOk = true) :
    process_order_refund env2 st' o =
      ((true, "Refund processed successfully"), [Req.ehdmReverseReq rid]) := by
  have hl := gfr_success_lookup env st rand o info st' tr msg h
  simp [process_order_refund, hl, hrid, hok]

/-- Claim C5 amended witness: on the same instance state that holds the
record for order 77, the refund finds it and issues the reversal. -/
theorem claim_C5_witness :
    process_order_refund {} st77 { id := 77 } =
      ((true, "Refund processed successfully"), [Req.ehdmReverseReq "R77"]) :=
  claim_C5_amended_in_memory_only { printResp := some {} } {} st77 st77 "QQQQQQ"
    "Receipt already exists" "R77" { id := 77 } info77 [] rfl rfl rfl

/-! ## Class structure and orchestration (src/app.py lines 30-67, 829-1058)

In src/app.py the class body of EHDMService ends at line 67: only __init__
and login are indented inside the class.  _prepare_receipt_data (line 69)
and _extract_hs_code (line 164) are module-level functions, and every def
from _generate_unique_code (line 185) through map_region_to_province (line
820) is nested inside _extract_hs_code's body after its return statements.
Attribute lookup of any of these names on an EHDMService instance therefore
raises AttributeError at runtime. -/

/-- The methods actually bound by class EHDMService. -/
def ehdmServiceMethods : List String := ["__init__", "login"]

/-- Python attribute dispatch on an EHDMService instance: run the body if
the name is a bound method, otherwise raise AttributeError. -/
def dispatchEHDM (name : String) (body : Except PyErr α) : Except PyErr α :=
  if ehdmServiceMethods.contains name then body else Except.error PyErr.attributeError

/-- Reading a Python local that may not have been assigned on the taken
branch (UnboundLocalError). -/
def pyLocal (x : Option α) : Except PyErr α :=
  match x with
  | none => Except.error PyErr.unboundLocalError
  | some v => Except.ok v

/-- The requests of a list of courier attempts. -/
def courierTrace (attempts : List (String × CourierPayload)) : List Req :=
  attempts.map fun a => Req.courierCreateReq a.1 a.2

/-- Body of CourierAutomation.is_order_already_processed (lines 836-869):
consult the in-process processed_orders cache, then fetch the order and look
for a TransImpex fulfillment or a processed/shipped tag; network failure is
caught and reported as not-processed. -/
def is_order_already_processed (env : Env) (po : List Int) (order_id : Int) :
    Bool × List Int × List Req :=
  if po.contains order_id then (true, po, [])
  else
    match env.getOrder order_id with
    | none => (false, po, [Req.shopGetOrder order_id])
    | some o =>
      if o.fulfillments.any (fun f => f.tracking_company == some "TransImpex Express") then
        (true, order_id :: po, [Req.shopGetOrder order_id])
      else
        if ((pySplitComma (o.tags.getD "")).map fun t => pyLower (pyStrip t)).contains "processed"
            || ((pySplitComma (o.tags.getD "")).map fun t => pyLower (pyStrip t)).contains "shipped" then
          (true, order_id :: po, [Req.shopGetOrder order_id])
        else (false, po, [Req.shopGetOrder order_id])

/-- Condensed model of the nested update_shopify_tracking defs (lines
378-517): a fulfillment write-back that succeeds iff the gateway accepts it.
Its call sites are unreachable (the names are not bound methods), so only
the success bit and the write-back request matter. -/
def updateShopifyTracking (env : Env) (order_id : Int) (tracking : String) :
    Bool × List Req :=
  (env.fulfillOk, [Req.shopFulfillReq order_id tracking])

/-- Body of CourierAutomation.process_order_immediately (lines 876-938):
skip when already processed; fetch the full order (non-200 returns False);
construct an EHDMService and log in; then the call
ehdm_service.create_courier_order raises AttributeError (not a bound
method), which the bare except at line 936 swallows, returning False.  The
branches behind the dispatch guard model what the source text would do if
the names were bound. -/
def process_order_immediately (env : Env) (po : List Int) (order_id : Int) :
    Bool × List Int × List Req :=
  let c := is_order_already_processed env po order_id
  if c.1 then (true, c.2.1, c.2.2)
  else
    match env.getOrder order_id with
    | none => (false, c.2.1, c.2.2 ++ [Req.shopGetOrder order_id])
    | some o =>
      let tr := c.2.2 ++ [Req.shopGetOrder order_id, Req.ehdmLoginReq]
      match dispatchEHDM "create_courier_order" (create_courier_order env.courier o 0) with
      | Except.error _ => (false, c.2.1, tr)
      | Except.ok r =>
        match r.1 with
        | none => (false, c.2.1, tr ++ courierTrace r.2)
        | some tracking =>
          match dispatchEHDM "update_shopify_tracking"
              (Except.ok (updateShopifyTracking env order_id tracking)) with
          | Except.error _ => (false, c.2.1, tr ++ courierTrace r.2)
          | Except.ok w =>
            if w.1 then (true, order_id :: c.2.1, tr ++ courierTrace r.2 ++ w.2)
            else (false, c.2.1, tr ++ courierTrace r.2 ++ w.2)

/-- Body of CourierAutomation.process_order_from_webhook (lines 940-1002):
skip when already processed; construct an EHDMService and log in; when login
succeeds, call generate_fiscal_receipt (an unbound name, so AttributeError);
when login fails, continue to create_courier_order (also unbound).  Either
way the bare except at line 1000 swallows the error and returns False.  The
locals receipt_success / receipt_data are assigned only in the
login-succeeded branch; line 984 reads receipt_success unconditionally once
a tracking number exists, raising UnboundLocalError when login failed —
modelled by pyLocal.  On the except path the requests issued are those made
before the first raise, which on every reachable path are the dedupe GET and
the login POST. -/
def process_order_from_webhook (env : Env) (rand : String) (po : List Int)
    (o : Order) : Bool × List Int × List Req :=
  let c := is_order_already_processed env po o.id
  if c.1 then (true, c.2.1, c.2.2)
  else
    let st0 : EHDMState := { token := env.loginToken }
    let tr0 := c.2.2 ++ [Req.ehdmLoginReq]
    let locals : Except PyErr (Option Bool × Option ReceiptInfo × List Req) :=
      if env.loginToken.isSome then
        ebind (dispatchEHDM "generate_fiscal_receipt"
            (Except.ok (generate_fiscal_receipt env st0 rand o))) fun g =>
          Except.ok (some g.1.1, g.1.2.1, g.2.2)
      else Except.ok (none, none, [])
    let body : Except PyErr (Bool × List Int × List Req) :=
      ebind locals fun ls =>
      ebind (dispatchEHDM "create_courier_order"
          (create_courier_order env.courier o 0)) fun r =>
      match r.1 with
      | none => Except.ok (false, c.2.1, tr0 ++ ls.2.2 ++ courierTrace r.2)
      | some tracking =>
        ebind (pyLocal ls.1) fun rsv =>
        let _receipt_url := if rsv then ls.2.1.bind (fun i => i.link) else none
        ebind (dispatchEHDM "update_shopify_tracking_with_shipping_links"
            (Except.ok (updateShopifyTracking env o.id tracking))) fun w =>
        if w.1 then Except.ok (true, o.id :: c.2.1, tr0 ++ ls.2.2 ++ courierTrace r.2 ++ w.2)
        else Except.ok (false, c.2.1, tr0 ++ ls.2.2 ++ courierTrace r.2 ++ w.2)
    match body with
    | Except.ok r => r
    | Except.error _ => (false, c.2.1, tr0)

/-- Body of handle_order_paid (lines 1009-1058): compute the webhook
fingerprint (md5 of the key-sorted JSON dump — identical payloads hash
identically, modelled by using the payload itself as the fingerprint);
acknowledge duplicates with 200 without doing anything; otherwise record the
fingerprint and PUT the pending-confirmation tag, answering 200 on success
and 500 on failure. -/
def handle_order_paid (env : Env) (webhooks : List Order) (payload : Order) :
    (Bool × Nat) × List Order × List Req :=
  if webhooks.contains payload then ((true, 200), webhooks, [])
  else
    let ws := payload :: webhooks
    if env.putOrderOk then
      ((true, 200), ws, [Req.shopPutOrder payload.id "pending-confirmation"])
    else ((false, 500), ws, [Req.shopPutOrder payload.id "pending-confirmation"])

/-- Count of courier create-draft-order requests in a trace. -/
def countCourier (tr : List Req) : Nat :=
  tr.countP fun r => match r with
    | Req.courierCreateReq _ _ => true
    | _ => false

/-- Count of receipt-print requests in a trace. -/
def countPrint (tr : List Req) : Nat :=
  tr.countP fun r => match r with
    | Req.ehdmPrintReq _ _ => true
    | _ => false

/-- Count of fulfillment write-back requests in a trace. -/
def countFulfill (tr : List Req) : Nat :=
  tr.countP fun r => match r with
    | Req.shopFulfillReq _ _ => true
    | _ => false

/-- Count of order tag-update PUT requests in a trace. -/
def countTagPut (tr : List Req) : Nat :=
  tr.countP fun r => match r with
    | Req.shopPutOrder _ _ => true
    | _ => false

@[simp] theorem countCourier_append (a b : List Req) :
    countCourier (a ++ b) = countCourier a + countCourier b := by
  simp [countCourier, List.countP_append]

@[simp] theorem countPrint_append (a b : List Req) :
    countPrint (a ++ b) = countPrint a + countPrint b := by
  simp [countPrint, List.countP_append]

@[simp] theorem countFulfill_append (a b : List Req) :
    countFulfill (a ++ b) = countFulfill a + countFulfill b := by
  simp [countFulfill, List.countP_append]

@[simp] theorem countCourier_getOrder (i : Int) :
    countCourier [Req.shopGetOrder i] = 0 := rfl

@[simp] theorem countCourier_getLogin (i : Int) :
    countCourier [Req.shopGetOrder i, Req.ehdmLoginReq] = 0 := rfl

@[simp] theorem countPrint_getOrder (i : Int) :
    countPrint [Req.shopGetOrder i] = 0 := rfl

@[simp] theorem countPrint_getLogin (i : Int) :
    countPrint [Req.shopGetOrder i, Req.ehdmLoginReq] = 0 := rfl

@[simp] theorem countFulfill_getOrder (i : Int) :
    countFulfill [Req.shopGetOrder i] = 0 := rfl

@[simp] theorem countFulfill_getLogin (i : Int) :
    countFulfill [Req.shopGetOrder i, Req.ehdmLoginReq] = 0 := rfl

@[simp] theorem countCourier_login : countCourier [Req.ehdmLoginReq] = 0 := rfl

@[simp] theorem countPrint_login : countPrint [Req.ehdmLoginReq] = 0 := rfl

@[simp] theorem countFulfill_login : countFulfill [Req.ehdmLoginReq] = 0 := rfl

theorem dispatch_create_raises (body : Except PyErr α) :
    dispatchEHDM "create_courier_order" body = Except.error PyErr.attributeError := rfl

theorem dispatch_gfr_raises (body : Except PyErr α) :
    dispatchEHDM "generate_fiscal_receipt" body = Except.error PyErr.attributeError := rfl

/-- The dedupe check issues no courier, print, fulfillment or tag-update
requests. -/
theorem iop_trace_counts (env : Env) (po : List Int) (i : Int) :
    countCourier (is_order_already_processed env po i).2.2 = 0 ∧
    countPrint (is_order_already_processed env po i).2.2 = 0 ∧
    countFulfill (is_order_already_processed env po i).2.2 = 0 := by
  rw [is_order_already_processed]
  split
  · exact ⟨rfl, rfl, rfl⟩
  · split
    · exact ⟨rfl, rfl, rfl⟩
    · split
      · exact ⟨rfl, rfl, rfl⟩
      · split
        · exact ⟨rfl, rfl, rfl⟩
        · exact ⟨rfl, rfl, rfl⟩


/-! ## Claim C2 -/

/-- Claim C2: for any order not already marked processed, every call to
process_order_immediately and process_order_from_webhook returns False and
issues no courier shipment-creation request and no receipt-print request:
EHDMService binds only __init__ and login, so the attribute lookups
create_courier_order and generate_fiscal_receipt raise AttributeError,
swallowed by the surrounding bare except, which returns False. -/
theorem claim_C2_unbound_methods (env : Env) (rand : String) (po : List Int)
    (o : Order)
    (h : (is_order_already_processed env po o.id).1 = false) :
    (process_order_immediately env po o.id).1 = false ∧
    countCourier (process_order_immediately env po o.id).2.2 = 0 ∧
    countPrint (process_order_immediately env po o.id).2.2 = 0 ∧
    (process_order_from_webhook env rand po o).1 = false ∧
    countCourier (process_order_from_webhook env rand po o).2.2 = 0 ∧
    countPrint (process_order_from_webhook env rand po o).2.2 = 0 := by
  obtain ⟨hc, hp, hf⟩ := iop_trace_counts env po o.id
  have himm : (process_order_immediately env po o.id).1 = false ∧
      countCourier (process_order_immediately env po o.id).2.2 = 0 ∧
      countPrint (process_order_immediately env po o.id).2.2 = 0 := by
    rw [process_order_immediately]
    simp only [h, if_false, Bool.false_eq_true]
    rcases hgo : env.getOrder o.id with _ | o'
    · refine ⟨rfl, ?_, ?_⟩ <;>
        simp [countCourier, countPrint, List.countP_append] <;>
        simp [countCourier, countPrint] at hc hp <;> assumption
    · simp only [dispatch_create_raises]
      refine ⟨?_, ?_, ?_⟩ <;> simp [hc, hp]
  have hweb : (process_order_from_webhook env rand po o).1 = false ∧
      countCourier (process_order_from_webhook env rand po o).2.2 = 0 ∧
      countPrint (process_order_from_webhook env rand po o).2.2 = 0 := by
    rw [process_order_from_webhook]
    simp only [h, if_false, Bool.false_eq_true]
    rcases hlog : env.loginToken with _ | tok
    · simp only [hlog, Option.isSome_none, Bool.false_eq_true, if_false,
        ebind_ok, dispatch_create_raises, ebind_error]
      refine ⟨?_, ?_, ?_⟩ <;> simp [hc, hp]
    · simp only [hlog, Option.isSome_some, if_true, dispatch_gfr_raises,
        ebind_error]
      refine ⟨?_, ?_, ?_⟩ <;> simp [hc, hp]
  exact ⟨himm.1, himm.2.1, himm.2.2, hweb.1, hweb.2.1, hweb.2.2⟩

/-- A fully healthy environment in which order 1001 is fetchable and not yet
processed: login succeeds, the courier and receipt services answer 200, the
write-back succeeds. -/
def envC1 : Env :=
  { loginToken := some "TOK",
    getOrder := fun i => if i = 1001 then some order1001 else none,
    putOrderOk := true,
    printResp := some { link := some "L", receiptId := some "R" },
    reverseOk := true,
    courier := fun _ => CourierResp.ok (some "TRACK1001") none none,
    fulfillOk := true }

/-- Claim C2 witness: the theorem applied to the healthy environment and
order 1001 with an empty processed-orders cache. -/
theorem claim_C2_witness :
    (process_order_immediately envC1 [] (1001 : Int)).1 = false ∧
    countCourier (process_order_immediately envC1 [] (1001 : Int)).2.2 = 0 ∧
    countPrint (process_order_immediately envC1 [] (1001 : Int)).2.2 = 0 ∧
    (process_order_from_webhook envC1 "ABCDEF" [] order1001).1 = false ∧
    countCourier (process_order_from_webhook envC1 "ABCDEF" [] order1001).2.2 = 0 ∧
    countPrint (process_order_from_webhook envC1 "ABCDEF" [] order1001).2.2 = 0 :=
  claim_C2_unbound_methods envC1 "ABCDEF" [] order1001 rfl

/-! ## Claim C1 -/

/-- Claim C1 failing run: with every external service healthy and order 1001
unprocessed, the manual trigger and the webhook trigger both return False
and between them issue zero courier shipment-creation requests and zero
receipt-print requests — not exactly one of each as the claim states; the
code also has no CONFIRMED_PROCESSING state and no compare-and-swap
(is_order_already_processed is a plain check and marking happens only after
a successful run). -/
theorem claim_C1_no_processing_effects :
    (process_order_immediately envC1 [] (1001 : Int)).1 = false ∧
    (process_order_from_webhook envC1 "ABCDEF" [] order1001).1 = false ∧
    countCourier ((process_order_immediately envC1 [] (1001 : Int)).2.2 ++
      (process_order_from_webhook envC1 "ABCDEF" [] order1001).2.2) = 0 ∧
    countPrint ((process_order_immediately envC1 [] (1001 : Int)).2.2 ++
      (process_order_from_webhook envC1 "ABCDEF" [] order1001).2.2) = 0 :=
  ⟨rfl, rfl, rfl, rfl⟩

/-! ## Claim C10 -/

/-- Claim C10 failing behaviour: when authentication with the receipt
service fails, process_order_from_webhook does not proceed to courier
shipment creation and does not succeed — it returns False with no courier
request and no write-back request.  The attribute lookup
create_courier_order raises AttributeError (swallowed by the bare except);
even with the binding fixed, line 984 would read the unassigned local
receipt_success and raise UnboundLocalError before the write-back. -/
theorem claim_C10_auth_failure_aborts (env : Env) (rand : String)
    (po : List Int) (o : Order)
    (hlogin : env.loginToken = none)
    (h : (is_order_already_processed env po o.id).1 = false) :
    (process_order_from_webhook env rand po o).1 = false ∧
    countCourier (process_order_from_webhook env rand po o).2.2 = 0 ∧
    countFulfill (process_order_from_webhook env rand po o).2.2 = 0 := by
  obtain ⟨hc, hp, hf⟩ := iop_trace_counts env po o.id
  rw [process_order_from_webhook]
  simp only [h, if_false, Bool.false_eq_true, hlogin, Option.isSome_none,
    ebind_ok, dispatch_create_raises, ebind_error]
  refine ⟨?_, ?_, ?_⟩ <;> simp [hc, hf]

/-- An environment identical to the healthy one except that the receipt
service login fails. -/
def envC10 : Env :=
  { envC1 with loginToken := none }

/-- Claim C10 witness: the theorem applied to the login-failing environment
and order 1001. -/
theorem claim_C10_witness :
    (process_order_from_webhook envC10 "ABCDEF" [] order1001).1 = false ∧
    countCourier (process_order_from_webhook envC10 "ABCDEF" [] order1001).2.2 = 0 ∧
    countFulfill (process_order_from_webhook envC10 "ABCDEF" [] order1001).2.2 = 0 :=
  claim_C10_auth_failure_aborts envC10 "ABCDEF" [] order1001 rfl rfl

/-! ## Claim C3 -/

/-- Claim C3: delivering the paid-event webhook twice with byte-identical
payloads records the fingerprint exactly once, issues exactly one
tag-update PUT, and the second (duplicate-fingerprint) delivery is
acknowledged with a 200 success response, issues no requests, and leaves
the fingerprint store unchanged. -/
theorem claim_C3_paid_webhook_dedupe (env : Env) (ws : List Order) (p : Order)
    (h : ws.contains p = false) :
    (handle_order_paid env ws p).2.1 = p :: ws ∧
    countTagPut (handle_order_paid env ws p).2.2 = 1 ∧
    (handle_order_paid env (p :: ws) p).1 = (true, 200) ∧
    (handle_order_paid env (p :: ws) p).2.1 = p :: ws ∧
    (handle_order_paid env (p :: ws) p).2.2 = [] := by
  have hdup : (p :: ws).contains p = true := by
    simp [List.contains_cons]
  constructor
  · rw [handle_order_paid]
    simp only [h, Bool.false_eq_true, if_false]
    rcases env.putOrderOk with _ | _ <;> rfl
  constructor
  · rw [handle_order_paid]
    simp only [h, Bool.false_eq_true, if_false]
    rcases env.putOrderOk with _ | _ <;> rfl
  refine ⟨?_, ?_, ?_⟩ <;> (rw [handle_order_paid]; simp only [hdup, if_true])

/-- Claim C3 witness: a concrete payload delivered twice starting from an
empty fingerprint store. -/
theorem claim_C3_witness :
    (handle_order_paid envC1 [] { id := 5 }).2.1 = [{ id := 5 }] ∧
    countTagPut (handle_order_paid envC1 [] { id := 5 }).2.2 = 1 ∧
    (handle_order_paid envC1 [{ id := 5 }] { id := 5 }).1 = (true, 200) ∧
    (handle_order_paid envC1 [{ id := 5 }] { id := 5 }).2.1 = [{ id := 5 }] ∧
    (handle_order_paid envC1 [{ id := 5 }] { id := 5 }).2.2 = [] :=
  claim_C3_paid_webhook_dedupe envC1 [] { id := 5 } rfl

end ShopifyApp
